import Mathlib

/-!
Verification of the host-side orchestration protocol of petrkr/trezorencrypt.

The repository contains two near-identical Go program variants:
* `src/main.go` (the full CLI, with flags `-Hi -Ho -e -h -k -v`) — embedded
  below as `trezorCall` / `main_run`;
* `src/unnamed/part_000` (an earlier variant with a hard-coded test value) —
  embedded as `trezorCallV0` / `mainV0_run`.

The embedding is shallow: the external collaborators (device transport,
enumeration, acquire/release, the `trezor-askpass` subprocess, the
environment variable) are modelled as oracles supplied in an environment
record, and the program is a pure function from that environment to the
trace of its observable effects (requests sent over the transport, prompts
passed to the collaborator, chunks written to standard output and standard
error, the number of `Release` calls, and the exit behaviour).

Go byte slices are modelled as `List Nat` (each element a byte value);
Go strings that are only passed around opaquely stay `String`.
-/

namespace TrezorEncrypt

/-- A device reply (`proto.Message` results of `trezorpbcall.Call`).
The four confirmation kinds carry exactly the payload the host inspects:
`PassphraseRequest.on_device` is an optional bool (protobuf pointer field).
`Features` carries the three fields `main` dereferences (`device_id`,
`label`, `bootloader_mode`), `Failure` its optional `message`,
`CipheredKeyValue` its `value` bytes; every other protobuf message the
device could send is collapsed into `unknownTerminal` (the programs only
ever hit their `default` switch branches on those). -/
inductive Reply where
  | buttonRequest
  | pinMatrixRequest
  | passphraseRequest (onDevice : Option Bool)
  | passphraseStateRequest
  | features (deviceId label : Option String) (bootloaderMode : Option Bool)
  | cipheredKeyValue (value : List Nat)
  | failure (message : Option String)
  | unknownTerminal
deriving DecidableEq

/-- A request message sent to the device (the `proto.Message` arguments of
`trezorpbcall.Call` constructed by the programs). -/
inductive Request where
  | Initialize
  | cipherKeyValue (key : String) (value : List Nat)
      (encrypt askOnDecrypt askOnEncrypt : Bool)
  | buttonAck
  | pinMatrixAck (pin : String)
  | passphraseAck (passphrase : Option String)
  | passphraseStateAck
deriving DecidableEq

/-- The four confirmation-request kinds (spec §3: Confirmation Request). -/
def Reply.isConfirmation : Reply → Bool
  | .buttonRequest => true
  | .pinMatrixRequest => true
  | .passphraseRequest _ => true
  | .passphraseStateRequest => true
  | _ => false

/-- Observable trace of one `trezorCall` chain.  `sent` are the requests
passed to the transport in order (the caller's request first, then the
synthesized acknowledgments); `prompts` the arguments given to the
`trezor-askpass` collaborator in order; `stdOut`/`errOut` the chunks written
to standard output / standard error; `consumed` the replies obtained from
the transport in order; `result` the reply returned to the caller (`none`
models a transport error: the reply stream ran out); `rest` the part of the
reply stream the chain did not consume. -/
structure CallTrace where
  sent : List Request
  prompts : List String
  stdOut : List String
  errOut : List String
  consumed : List Reply
  result : Option Reply
  rest : List Reply
deriving DecidableEq

/-- `trezorCall` of `src/main.go` (lines 60–109).  `askpass` is the
`trezor-askpass` collaborator: prompt argument ↦ captured standard output
(the oracle models a collaborator that succeeds; no claim exercises the
`checkError` path on a failing collaborator).  The pin/passphrase is the
collaborator's raw output — the Go code is `pin := string(out)`, no
trimming.  A `PassphraseRequest` takes the on-device branch exactly when
`data.OnDevice != nil && *data.OnDevice`, printing its notice to stderr
before recursing. -/
def trezorCall (askpass : String → String) : Request → List Reply → CallTrace
  | req, [] => ⟨[req], [], [], [], [], none, []⟩
  | req, .buttonRequest :: rest =>
      let t := trezorCall askpass .buttonAck rest
      ⟨req :: t.sent, t.prompts, t.stdOut, t.errOut,
        .buttonRequest :: t.consumed, t.result, t.rest⟩
  | req, .pinMatrixRequest :: rest =>
      let t := trezorCall askpass (.pinMatrixAck (askpass "PIN:")) rest
      ⟨req :: t.sent, "PIN:" :: t.prompts, t.stdOut, t.errOut,
        .pinMatrixRequest :: t.consumed, t.result, t.rest⟩
  | req, .passphraseRequest od :: rest =>
      if od = some true then
        let t := trezorCall askpass (.passphraseAck none) rest
        ⟨req :: t.sent, t.prompts, t.stdOut,
          "Passphrase requested on device" :: t.errOut,
          .passphraseRequest od :: t.consumed, t.result, t.rest⟩
      else
        let t := trezorCall askpass (.passphraseAck (some (askpass "Passphrase:"))) rest
        ⟨req :: t.sent, "Passphrase:" :: t.prompts, t.stdOut, t.errOut,
          .passphraseRequest od :: t.consumed, t.result, t.rest⟩
  | req, .passphraseStateRequest :: rest =>
      let t := trezorCall askpass .passphraseStateAck rest
      ⟨req :: t.sent, t.prompts, t.stdOut, t.errOut,
        .passphraseStateRequest :: t.consumed, t.result, t.rest⟩
  | req, r :: rest => ⟨[req], [], [], [], [r], some r, rest⟩

/-- `trezorCall` of `src/unnamed/part_000` (lines 58–107).  Differences from
the `src/main.go` variant: the PIN branch first prints `PIN Request` (plus
newline, `fmt.Println`) to standard output, and the collaborator prompts are
`PIN` and `Passphrase` without a colon. -/
def trezorCallV0 (askpass : String → String) : Request → List Reply → CallTrace
  | req, [] => ⟨[req], [], [], [], [], none, []⟩
  | req, .buttonRequest :: rest =>
      let t := trezorCallV0 askpass .buttonAck rest
      ⟨req :: t.sent, t.prompts, t.stdOut, t.errOut,
        .buttonRequest :: t.consumed, t.result, t.rest⟩
  | req, .pinMatrixRequest :: rest =>
      let t := trezorCallV0 askpass (.pinMatrixAck (askpass "PIN")) rest
      ⟨req :: t.sent, "PIN" :: t.prompts, "PIN Request\n" :: t.stdOut, t.errOut,
        .pinMatrixRequest :: t.consumed, t.result, t.rest⟩
  | req, .passphraseRequest od :: rest =>
      if od = some true then
        let t := trezorCallV0 askpass (.passphraseAck none) rest
        ⟨req :: t.sent, t.prompts, t.stdOut,
          "Passphrase requested on device" :: t.errOut,
          .passphraseRequest od :: t.consumed, t.result, t.rest⟩
      else
        let t := trezorCallV0 askpass (.passphraseAck (some (askpass "Passphrase"))) rest
        ⟨req :: t.sent, "Passphrase" :: t.prompts, t.stdOut, t.errOut,
          .passphraseRequest od :: t.consumed, t.result, t.rest⟩
  | req, .passphraseStateRequest :: rest =>
      let t := trezorCallV0 askpass .passphraseStateAck rest
      ⟨req :: t.sent, t.prompts, t.stdOut, t.errOut,
        .passphraseStateRequest :: t.consumed, t.result, t.rest⟩
  | req, r :: rest => ⟨[req], [], [], [], [r], some r, rest⟩

/-! ## Go `encoding/hex`, padding, byte/string helpers -/

/-- Go `encoding/hex` digit decoding: value of an ASCII hex digit byte. -/
def fromHexChar (c : Nat) : Option Nat :=
  if 48 ≤ c ∧ c ≤ 57 then some (c - 48)
  else if 97 ≤ c ∧ c ≤ 102 then some (c - 97 + 10)
  else if 65 ≤ c ∧ c ≤ 70 then some (c - 65 + 10)
  else none

/-- The decoding loop of Go `hex.Decode`: decode byte pairs left to right,
stopping at the first pair containing a non-hex byte (and at a trailing odd
byte).  This is exactly the prefix of bytes `hex.Decode` has written to
`dst` when it returns, whether it returns `nil`, `InvalidByteError`, or
`ErrLength`. -/
def decodeHexPairs : List Nat → List Nat
  | a :: b :: rest =>
      match fromHexChar a, fromHexChar b with
      | some x, some y => (16 * x + y) :: decodeHexPairs rest
      | _, _ => []
  | _ => []

/-- Go `hex.DecodeString(s)` with the error discarded, as in
`value, _ = hex.DecodeString(string(value))` (src/main.go line 194):
the result is `dst[:n]`, the successfully decoded prefix. -/
def hexDecodeString (s : List Nat) : List Nat := decodeHexPairs s

/-- The aliased in-place call `hex.Decode(value, value)` with both results
ignored (src/main.go line 203).  `Decode` writes the `n` decoded bytes into
`value[0:n]`; the slice keeps its original length, so positions `n`
onward still hold the original bytes.  (Reads at `2*i, 2*i+1` always happen
before the write at `i ≤ 2*i`, so the decoder sees the original bytes.) -/
def hexDecodeInPlace (v : List Nat) : List Nat :=
  decodeHexPairs v ++ v.drop (decodeHexPairs v).length

/-- Go `hex.EncodeToString` digit table: lowercase hex digit byte. -/
def hexDigitChar (d : Nat) : Nat := if d < 10 then 48 + d else 87 + d

/-- Go `hex.EncodeToString` on a byte list, as the list of ASCII bytes of
the resulting string (src/main.go line 230). -/
def hexEncodeToString : List Nat → List Nat
  | [] => []
  | b :: bs => hexDigitChar (b / 16 % 16) :: hexDigitChar (b % 16) :: hexEncodeToString bs

/-- The padding step (src/main.go lines 209–210, src/unnamed/part_000 lines
165–166): `make([]byte, 16*int(math.Ceil(float64(len(v))/16)))` then `copy`.
`math.Ceil(float64 L / 16)` is exact for every realistic slice length
(`L < 2^52`), and `⌈L/16⌉ = (L+15)/16` in natural-number division. -/
def pad16 (v : List Nat) : List Nat :=
  v ++ List.replicate (16 * ((v.length + 15) / 16) - v.length) 0

/-- Go `string(bytes)` used when a byte slice is printed with `%s`. -/
def strOfBytes (bs : List Nat) : String :=
  String.mk (bs.map (fun b => Char.ofNat b))

/-- Modelled from the spec: the trailing-whitespace/newline stripping that
§6 claims is applied to the collaborator's captured standard output
("standard output captured as the secret (trailing whitespace/newline
stripped)").  The Go source applies no such stripping; this definition
exists only to state that spec claim and compare it with the source. -/
def specStripTrailing (s : String) : String :=
  String.mk (((s.toList).reverse.dropWhile (fun c =>
    c = ' ' ∨ c = '\t' ∨ c = '\n' ∨ c = '\r')).reverse)

example : specStripTrailing "1234\n" = "1234" := by decide

example :
    (trezorCall (fun _ => "x") .Initialize
      [.buttonRequest, .failure (some "f")]).sent
      = [.Initialize, .buttonAck] := by decide

example :
    (trezorCall (fun _ => "x") .Initialize
      [.pinMatrixRequest, .failure (some "f")]).prompts = ["PIN:"] := by decide

/-! ## The orchestrator of `src/main.go` -/

/-- How a run of the process ends: an `os.Exit` with a status code (a plain
return from `main` is `exited 0`), or a Go runtime/explicit `panic`. -/
inductive ExitKind where
  | exited (code : Int)
  | panicked (msg : String)
deriving DecidableEq

/-- Observable outcome of a full program run.  `stdOut` is the list of byte
chunks written to standard output, `errOut` the chunks written to standard
error (`"Got error"` stands for the opaque `"Got error: <err>"` line of
`checkError`, `"usage"` for the flag-help text, which the `flag` package
writes to standard error), `releases` the number of `trezorAPI.Release`
calls made, `cipherSent` the `CipherKeyValue` request if the cipher call
was reached. -/
structure MainResult where
  stdOut : List (List Nat)
  errOut : List String
  releases : Nat
  cipherSent : Option Request
  exit : ExitKind
deriving DecidableEq

/-- Behaviour of the external collaborators during one run of
`src/main.go`'s `main`. `newOk`/`enumOk`: whether `trezorapi.New` /
`Enumerate` succeed; `devices`: how many devices `Enumerate` lists;
`acquireOk`: whether `Acquire` succeeds; `replies`: the reply stream of the
transport, consumed one reply per `trezorpbcall.Call` (exhaustion models a
transport error); `askpass`: the `trezor-askpass` collaborator; `envValue`:
the bytes of `$TREZOR_CIPHER_VALUE`; `releaseOk`: whether `Release` calls
succeed. -/
structure Env where
  newOk : Bool
  enumOk : Bool
  devices : Nat
  acquireOk : Bool
  replies : List Reply
  askpass : String → String
  envValue : List Nat
  releaseOk : Bool

/-- Outcome of the `Initialize`-reply switch (src/main.go lines 157–170):
either the run aborts (failed release inside the bootloader branch, or a
nil-pointer dereference of `DeviceId`/`Label`), or execution continues with
the stderr chunks written and `Release` calls made so far. -/
inductive StepOut where
  | abort (errOut : List String) (releases : Nat) (exit : ExitKind)
  | cont (errOut : List String) (releases : Nat)
deriving DecidableEq

/-- The switch on the `Initialize` reply, src/main.go lines 157–170.  In
the `Features` case with `bootloader_mode` true the code prints the notice
and releases the session but does not exit, so execution falls through to
the `Device ID` print and the rest of `main`. -/
def initSwitch (releaseOk : Bool) : Reply → StepOut
  | .features dId lbl boot =>
      if boot = some true then
        if releaseOk then
          match dId, lbl with
          | some i, some l =>
              .cont ["Device is in bootloader mode\n",
                     "Device ID: " ++ i ++ " (" ++ l ++ ")\n"] 1
          | _, _ =>
              .abort ["Device is in bootloader mode\n"] 1
                (.panicked "nil pointer dereference")
        else
          .abort ["Device is in bootloader mode\n", "Got error"] 1 (.exited 255)
      else
        match dId, lbl with
        | some i, some l => .cont ["Device ID: " ++ i ++ " (" ++ l ++ ")\n"] 0
        | _, _ => .abort [] 0 (.panicked "nil pointer dereference")
  | _ => .cont ["Unknown type.\n"] 0

/-- Value resolution, src/main.go lines 172–179: the `-v` flag, falling back
to `$TREZOR_CIPHER_VALUE` when the flag is empty. -/
def resolveValue (valueFlag envValue : List Nat) : List Nat :=
  if valueFlag.length = 0 then envValue else valueFlag

/-- The hex-processing of the value, src/main.go lines 193–205: if `-Hi`,
decode (error discarded, so a partial decode on malformed hex); then, in
decrypt mode with `-Hi`, panic when the once-decoded length is odd,
otherwise decode the already-decoded bytes again in place.  `none` models
the `panic("Value is not valid HEX data")`. -/
def processValue (hexIn encrypt : Bool) (value : List Nat) : Option (List Nat) :=
  let v1 := if hexIn then hexDecodeString value else value
  if encrypt = false ∧ hexIn = true then
    if v1.length % 2 ≠ 0 then none else some (hexDecodeInPlace v1)
  else some v1

/-- The cipher call and its reply switch, src/main.go lines 212–248,
given the stderr chunks `errAcc` and `Release` count `relAcc` accumulated
so far and the unconsumed reply stream.  All branches release the session
(lines 236, 241, 247) and `checkError` turns a failed release into an
exit-255; the `Failure` branch dereferences `data.Message`. Note line 240
prints `Unknown type.` with `Fprintf` — no newline — unlike line 169. -/
def mainCipherPhase (hexOut encrypt : Bool) (key : String) (padded : List Nat)
    (env : Env) (errAcc : List String) (relAcc : Nat) (replies : List Reply) :
    MainResult :=
  let req : Request := .cipherKeyValue key padded encrypt true true
  let t := trezorCall env.askpass req replies
  match t.result with
  | none => ⟨[], errAcc ++ t.errOut ++ ["Got error"], relAcc, some req, .exited 255⟩
  | some (.cipheredKeyValue v) =>
      let out := if hexOut then hexEncodeToString v else v
      if env.releaseOk then
        ⟨[out], errAcc ++ t.errOut, relAcc + 1, some req, .exited 0⟩
      else
        ⟨[out], errAcc ++ t.errOut ++ ["Got error"], relAcc + 1, some req, .exited 255⟩
  | some (.failure none) =>
      ⟨[], errAcc ++ t.errOut, relAcc, some req, .panicked "nil pointer dereference"⟩
  | some (.failure (some m)) =>
      if env.releaseOk then
        ⟨[], errAcc ++ t.errOut ++ ["Failure: " ++ m ++ "\n"], relAcc + 1, some req,
          .exited 2⟩
      else
        ⟨[], errAcc ++ t.errOut ++ ["Failure: " ++ m ++ "\n", "Got error"], relAcc + 1,
          some req, .exited 255⟩
  | some _ =>
      if env.releaseOk then
        ⟨[], errAcc ++ t.errOut ++ ["Unknown type."], relAcc + 1, some req, .exited 254⟩
      else
        ⟨[], errAcc ++ t.errOut ++ ["Unknown type.", "Got error"], relAcc + 1, some req,
          .exited 255⟩

/-- Value resolution, hex processing, padding and the cipher phase,
src/main.go lines 172–248.  The no-value branch (lines 181–191) prints to
stderr, releases, panics on a failed release, and exits 1. -/
def mainValuePhase (hexIn hexOut encrypt : Bool) (key : String)
    (valueFlag : List Nat) (env : Env) (errAcc : List String) (relAcc : Nat)
    (replies : List Reply) : MainResult :=
  let value := resolveValue valueFlag env.envValue
  if value.length = 0 then
    if env.releaseOk then
      ⟨[], errAcc ++
          ["No value specified! Use eighter environment TREZOR_CIPHER_VALUE or -v param"],
        relAcc + 1, none, .exited 1⟩
    else
      ⟨[], errAcc ++
          ["No value specified! Use eighter environment TREZOR_CIPHER_VALUE or -v param"],
        relAcc + 1, none, .panicked "release error"⟩
  else
    match processValue hexIn encrypt value with
    | none => ⟨[], errAcc, relAcc, none, .panicked "Value is not valid HEX data"⟩
    | some v => mainCipherPhase hexOut encrypt key (pad16 v) env errAcc relAcc replies

/-- Everything after a successful `Acquire`, src/main.go lines 147–248:
the `Initialize` call chain, its reply switch, then the value/cipher phases
threaded over the unconsumed part of the reply stream. -/
def mainAfterAcquire (hexIn hexOut encrypt : Bool) (key : String)
    (valueFlag : List Nat) (env : Env) : MainResult :=
  let t1 := trezorCall env.askpass .Initialize env.replies
  match t1.result with
  | none => ⟨[], t1.errOut ++ ["Got error"], 0, none, .exited 255⟩
  | some r =>
      match initSwitch env.releaseOk r with
      | .abort eOut rel ex => ⟨[], t1.errOut ++ eOut, rel, none, ex⟩
      | .cont eOut rel =>
          mainValuePhase hexIn hexOut encrypt key valueFlag env
            (t1.errOut ++ eOut) rel t1.rest

/-- `main` of `src/main.go` (lines 120–249) as a function of the parsed
flags and the collaborator environment.  `checkError` failures print
`Got error: <err>` to stderr and exit 255; `usage()` writes the flag help
to standard error and the help path then exits 0. -/
def main_run (hexIn hexOut encrypt help : Bool) (key : String)
    (valueFlag : List Nat) (env : Env) : MainResult :=
  if help then ⟨[], ["usage"], 0, none, .exited 0⟩
  else if env.newOk = false then ⟨[], ["Got error"], 0, none, .exited 255⟩
  else if env.enumOk = false then ⟨[], ["Got error"], 0, none, .exited 255⟩
  else if env.devices < 1 then
    ⟨[], ["No TREZOR device(s) found"], 0, none, .exited 1⟩
  else if env.acquireOk = false then ⟨[], ["Got error"], 0, none, .exited 255⟩
  else mainAfterAcquire hexIn hexOut encrypt key valueFlag env

/-! ## The orchestrator of `src/unnamed/part_000` -/

/-- Outcome of a run of the `part_000` variant.  Its standard output is a
list of strings (that variant prints its diagnostics and results with
`fmt.Printf`/`fmt.Println` to standard output). -/
structure MainResultV0 where
  stdOut : List String
  errOut : List String
  releases : Nat
  cipherSent : Option Request
  exit : ExitKind
deriving DecidableEq

/-- The hard-coded `value := []byte("TEST VALUE")` of
`src/unnamed/part_000` line 164. -/
def testValueV0 : List Nat := [84, 69, 83, 84, 32, 86, 65, 76, 85, 69]

/-- `main` of `src/unnamed/part_000` (lines 109–200).  That variant panics
on every collaborator error, prints `Device ID: <id>` (dereferencing only
`DeviceId`), `Unknown type.`, `Data: <value>` and `Failure: <message>` all
to standard output, ciphers the fixed `TEST VALUE` under key `TEST KEY`
with `encrypt=true`, never releases in the reply switches, and releases
once at the end before returning (exit 0). -/
def mainV0_run (help : Bool) (env : Env) : MainResultV0 :=
  if help then ⟨[], ["usage"], 0, none, .exited 0⟩
  else if env.newOk = false then ⟨[], [], 0, none, .panicked "trezorapi.New"⟩
  else if env.enumOk = false then ⟨[], [], 0, none, .panicked "Enumerate"⟩
  else if env.devices < 1 then
    ⟨[], ["No TREZOR device(s) found"], 0, none, .exited 1⟩
  else if env.acquireOk = false then ⟨[], [], 0, none, .panicked "Acquire"⟩
  else
    let t1 := trezorCallV0 env.askpass .Initialize env.replies
    match t1.result with
    | none => ⟨t1.stdOut, t1.errOut, 0, none, .panicked "call error"⟩
    | some r =>
        let idOut :=
          match r with
          | .features dId _ _ =>
              match dId with
              | some i => some ["Device ID: " ++ i ++ "\n"]
              | none => none
          | _ => some ["Unknown type.\n"]
        match idOut with
        | none => ⟨t1.stdOut, t1.errOut, 0, none, .panicked "nil pointer dereference"⟩
        | some idChunks =>
            let req : Request :=
              .cipherKeyValue "TEST KEY" (pad16 testValueV0) true true true
            let t2 := trezorCallV0 env.askpass req t1.rest
            match t2.result with
            | none =>
                ⟨t1.stdOut ++ idChunks ++ t2.stdOut, t1.errOut ++ t2.errOut, 0,
                  some req, .panicked "call error"⟩
            | some (.cipheredKeyValue v) =>
                if env.releaseOk then
                  ⟨t1.stdOut ++ idChunks ++ t2.stdOut ++ ["Data: " ++ strOfBytes v],
                    t1.errOut ++ t2.errOut, 1, some req, .exited 0⟩
                else
                  ⟨t1.stdOut ++ idChunks ++ t2.stdOut ++ ["Data: " ++ strOfBytes v],
                    t1.errOut ++ t2.errOut, 1, some req, .panicked "release error"⟩
            | some (.failure none) =>
                ⟨t1.stdOut ++ idChunks ++ t2.stdOut, t1.errOut ++ t2.errOut, 0,
                  some req, .panicked "nil pointer dereference"⟩
            | some (.failure (some m)) =>
                if env.releaseOk then
                  ⟨t1.stdOut ++ idChunks ++ t2.stdOut ++ ["Failure: " ++ m ++ "\n"],
                    t1.errOut ++ t2.errOut, 1, some req, .exited 0⟩
                else
                  ⟨t1.stdOut ++ idChunks ++ t2.stdOut ++ ["Failure: " ++ m ++ "\n"],
                    t1.errOut ++ t2.errOut, 1, some req, .panicked "release error"⟩
            | some _ =>
                if env.releaseOk then
                  ⟨t1.stdOut ++ idChunks ++ t2.stdOut ++ ["Unknown type.\n"],
                    t1.errOut ++ t2.errOut, 1, some req, .exited 0⟩
                else
                  ⟨t1.stdOut ++ idChunks ++ t2.stdOut ++ ["Unknown type.\n"],
                    t1.errOut ++ t2.errOut, 1, some req, .panicked "release error"⟩

/-! ## Trace lemmas for the Call Engine -/

/-- The acknowledgment the `src/main.go` Call Engine synthesizes for a
confirmation reply (`none` for terminal replies). -/
def ackOfReply (askpass : String → String) : Reply → Option Request
  | .buttonRequest => some .buttonAck
  | .pinMatrixRequest => some (.pinMatrixAck (askpass "PIN:"))
  | .passphraseRequest od =>
      some (if od = some true then .passphraseAck none
            else .passphraseAck (some (askpass "Passphrase:")))
  | .passphraseStateRequest => some .passphraseStateAck
  | _ => none

/-- The collaborator prompt the `src/main.go` Call Engine uses when it
receives a given reply, if any. -/
def promptOfReply : Reply → Option String
  | .pinMatrixRequest => some "PIN:"
  | .passphraseRequest od => if od = some true then none else some "Passphrase:"
  | _ => none

/-- The stderr notice the `src/main.go` Call Engine prints for a given
reply, if any. -/
def noticeOfReply : Reply → Option String
  | .passphraseRequest od =>
      if od = some true then some "Passphrase requested on device" else none
  | _ => none

theorem trezorCall_consumed_append (askpass : String → String) (req : Request)
    (replies : List Reply) :
    (trezorCall askpass req replies).consumed
      ++ (trezorCall askpass req replies).rest = replies := by
  induction replies generalizing req with
  | nil => simp [trezorCall]
  | cons r rest ih =>
      cases r
      case passphraseRequest od =>
        by_cases hod : od = some true <;> simp [trezorCall, hod, ih]
      all_goals simp [trezorCall, ih]

theorem trezorCall_sent_eq (askpass : String → String) (req : Request)
    (replies : List Reply) :
    (trezorCall askpass req replies).sent
      = req :: (trezorCall askpass req replies).consumed.filterMap (ackOfReply askpass) := by
  induction replies generalizing req with
  | nil => simp [trezorCall]
  | cons r rest ih =>
      cases r
      case passphraseRequest od =>
        by_cases hod : od = some true <;> simp [trezorCall, hod, ackOfReply, ih]
      all_goals simp [trezorCall, ackOfReply, ih]

theorem trezorCall_prompts_eq (askpass : String → String) (req : Request)
    (replies : List Reply) :
    (trezorCall askpass req replies).prompts
      = (trezorCall askpass req replies).consumed.filterMap promptOfReply := by
  induction replies generalizing req with
  | nil => simp [trezorCall]
  | cons r rest ih =>
      cases r
      case passphraseRequest od =>
        by_cases hod : od = some true <;> simp [trezorCall, hod, promptOfReply, ih]
      all_goals simp [trezorCall, promptOfReply, ih]

theorem trezorCall_errOut_eq (askpass : String → String) (req : Request)
    (replies : List Reply) :
    (trezorCall askpass req replies).errOut
      = (trezorCall askpass req replies).consumed.filterMap noticeOfReply := by
  induction replies generalizing req with
  | nil => simp [trezorCall]
  | cons r rest ih =>
      cases r
      case passphraseRequest od =>
        by_cases hod : od = some true <;> simp [trezorCall, hod, noticeOfReply, ih]
      all_goals simp [trezorCall, noticeOfReply, ih]

theorem trezorCall_stdOut_eq (askpass : String → String) (req : Request)
    (replies : List Reply) :
    (trezorCall askpass req replies).stdOut = [] := by
  induction replies generalizing req with
  | nil => simp [trezorCall]
  | cons r rest ih =>
      cases r
      case passphraseRequest od =>
        by_cases hod : od = some true <;> simp [trezorCall, hod, ih]
      all_goals simp [trezorCall, ih]

theorem trezorCall_result_not_confirmation (askpass : String → String)
    (req : Request) (replies : List Reply) (r : Reply)
    (h : (trezorCall askpass req replies).result = some r) :
    r.isConfirmation = false := by
  induction replies generalizing req with
  | nil => simp [trezorCall] at h
  | cons hd rest ih =>
      cases hd <;> simp [trezorCall] at h <;> try exact ih _ h
      case passphraseRequest od =>
        by_cases hod : od = some true <;> simp [hod] at h <;> exact ih _ h
      all_goals subst h; rfl

theorem trezorCall_result_mem (askpass : String → String) (req : Request)
    (replies : List Reply) (r : Reply)
    (h : (trezorCall askpass req replies).result = some r) : r ∈ replies := by
  induction replies generalizing req with
  | nil => simp [trezorCall] at h
  | cons hd rest ih =>
      cases hd <;> simp [trezorCall] at h
      case passphraseRequest od =>
        by_cases hod : od = some true <;> simp [hod] at h <;>
          exact List.mem_cons_of_mem _ (ih _ h)
      case buttonRequest => exact List.mem_cons_of_mem _ (ih _ h)
      case pinMatrixRequest => exact List.mem_cons_of_mem _ (ih _ h)
      case passphraseStateRequest => exact List.mem_cons_of_mem _ (ih _ h)
      all_goals subst h; exact List.mem_cons_self _ _

/-! ## Claim C1 -/

/-- The confirmation kinds of claim C1: the ones the `src/main.go` Call
Engine acknowledges without consulting the collaborator (ButtonRequest,
on-device PassphraseRequest, PassphraseStateRequest). -/
def Reply.isAutoConfirm : Reply → Bool
  | .buttonRequest => true
  | .passphraseRequest od => decide (od = some true)
  | .passphraseStateRequest => true
  | _ => false

/-- The acknowledgment kind matching each of C1's confirmation kinds
(junk on other replies; only applied under `isAutoConfirm`). -/
def autoAck : Reply → Request
  | .buttonRequest => .buttonAck
  | .passphraseRequest _ => .passphraseAck none
  | _ => .passphraseStateAck

/-- C1: for every sequence of N confirmation replies (any mix of
ButtonRequest, on-device PassphraseRequest, PassphraseStateRequest)
followed by one terminal reply, `trezorCall` sends exactly the initial
request followed by the N matching synthesized acknowledgments, returns the
terminal reply unchanged, consumes nothing beyond the terminal reply (no
transport call after it — `extra` is left untouched), invokes the
collaborator zero times; and `trezorCall` never returns a confirmation
request. -/
theorem C1_confirmation_chain (askpass : String → String) (req : Request)
    (confs : List Reply) (term : Reply) (extra : List Reply)
    (hc : ∀ c ∈ confs, c.isAutoConfirm = true)
    (ht : term.isConfirmation = false) :
    trezorCall askpass req (confs ++ term :: extra)
      = ⟨req :: confs.map autoAck, [], [], confs.filterMap noticeOfReply,
          confs ++ [term], some term, extra⟩
    ∧ ∀ (rs : List Reply) (r : Reply),
        (trezorCall askpass req rs).result = some r → r.isConfirmation = false := by
  refine ⟨?_, fun rs r h => trezorCall_result_not_confirmation askpass req rs r h⟩
  induction confs generalizing req with
  | nil =>
      cases term <;> simp [Reply.isConfirmation] at ht <;> simp [trezorCall]
  | cons c confs ih =>
      have hcc := hc c (List.mem_cons_self _ _)
      have hrest : ∀ x ∈ confs, x.isAutoConfirm = true :=
        fun x hx => hc x (List.mem_cons_of_mem _ hx)
      have ihx := fun r => ih r hrest
      cases c with
      | buttonRequest =>
          simp [trezorCall, autoAck, noticeOfReply, ihx]
      | passphraseRequest od =>
          have hod : od = some true := by
            simpa [Reply.isAutoConfirm] using hcc
          simp [trezorCall, hod, autoAck, noticeOfReply, ihx]
      | passphraseStateRequest =>
          simp [trezorCall, autoAck, noticeOfReply, ihx]
      | pinMatrixRequest => simp [Reply.isAutoConfirm] at hcc
      | features dId lbl boot => simp [Reply.isAutoConfirm] at hcc
      | cipheredKeyValue v => simp [Reply.isAutoConfirm] at hcc
      | failure m => simp [Reply.isAutoConfirm] at hcc
      | unknownTerminal => simp [Reply.isAutoConfirm] at hcc

/-- Witness for C1 at a concrete chain of three confirmations followed by a
`Failure` terminal reply, with one extra reply left on the stream. -/
theorem C1_confirmation_chain_inst :
    trezorCall (fun _ => "s") .Initialize
        ([.buttonRequest, .passphraseRequest (some true), .passphraseStateRequest]
          ++ Reply.failure (some "f") :: [.buttonRequest])
      = ⟨[.Initialize, .buttonAck, .passphraseAck none, .passphraseStateAck],
          [], [], ["Passphrase requested on device"],
          [.buttonRequest, .passphraseRequest (some true), .passphraseStateRequest,
            .failure (some "f")],
          some (.failure (some "f")), [.buttonRequest]⟩ := by
  have h := C1_confirmation_chain (fun _ => "s") .Initialize
    [.buttonRequest, .passphraseRequest (some true), .passphraseStateRequest]
    (.failure (some "f")) [.buttonRequest] (by decide) (by decide)
  simpa [autoAck, noticeOfReply] using h.1

/-! ## Claim C4: padding -/

/-- C4: for every payload of length `L`, the padding step produces
`16 * ⌈L/16⌉` bytes (in natural-number arithmetic, `⌈L/16⌉ = (L+15)/16`),
whose first `L` bytes are the payload and whose remaining bytes are zero;
a payload whose length is a multiple of 16 is returned unchanged. -/
theorem C4_padding_spec (v : List Nat) :
    (pad16 v).length = 16 * ((v.length + 15) / 16)
    ∧ (pad16 v).take v.length = v
    ∧ (pad16 v).drop v.length
        = List.replicate (16 * ((v.length + 15) / 16) - v.length) 0
    ∧ (16 ∣ v.length → pad16 v = v) := by
  refine ⟨?_, ?_, ?_, ?_⟩
  · simp only [pad16, List.length_append, List.length_replicate]
    omega
  · simp [pad16, List.take_left]
  · simp [pad16, List.drop_left]
  · intro hdvd
    obtain ⟨k, hk⟩ := hdvd
    have hz : 16 * ((v.length + 15) / 16) - v.length = 0 := by omega
    simp [pad16, hz]

/-- Witness for C4 on a concrete aligned payload: a 16-byte payload is
returned unchanged. -/
theorem C4_padding_spec_inst :
    pad16 (List.replicate 16 7) = List.replicate 16 7 :=
  (C4_padding_spec (List.replicate 16 7)).2.2.2 (by decide)

/-! ## Claim C5: PIN collection -/

/-- C5 counterexample: the claim says the collaborator's standard output
with trailing whitespace/newline stripped becomes the pin field.  With the
collaborator returning `"1234\n"`, the `src/main.go` engine sends
`PinMatrixAck` with pin `"1234\n"` — the raw, untrimmed output (the Go code
is `pin := string(out)`), which differs from the stripped form `"1234"`. -/
theorem C5_pin_untrimmed_cex :
    (trezorCall (fun p => if p = "PIN:" then "1234\n" else "") .Initialize
        [.pinMatrixRequest, .failure (some "f")]).sent
      = [.Initialize, .pinMatrixAck "1234\n"]
    ∧ specStripTrailing "1234\n" = "1234"
    ∧ ("1234\n" : String) ≠ "1234" := by
  refine ⟨by decide, by decide, by decide⟩

theorem count_filterMap_prompt_pin (l : List Reply) :
    (l.filterMap promptOfReply).count "PIN:" = l.count Reply.pinMatrixRequest := by
  induction l with
  | nil => simp
  | cons r rest ih =>
      cases r
      case passphraseRequest od =>
        by_cases hod : od = some true <;>
          simp [promptOfReply, hod, List.count_cons, ih]
      all_goals simp [promptOfReply, List.count_cons, ih]

theorem pinAck_mem_filterMap (askpass : String → String) (l : List Reply)
    (p : String) (h : Request.pinMatrixAck p ∈ l.filterMap (ackOfReply askpass)) :
    p = askpass "PIN:" := by
  rw [List.mem_filterMap] at h
  obtain ⟨a, -, ha⟩ := h
  cases a
  case pinMatrixRequest =>
    simp [ackOfReply] at ha
    exact ha.symm
  case passphraseRequest od =>
    by_cases hod : od = some true <;> simp [ackOfReply, hod] at ha
  all_goals simp [ackOfReply] at ha

/-- C5 (amended): in the `src/main.go` variant, the collaborator is invoked
with the literal prompt `"PIN:"` exactly once per `PinMatrixRequest`
consumed, and the pin field of every synthesized `PinMatrixAck` is the
collaborator's raw output for that prompt, with no trimming.  (The
`src/unnamed/part_000` variant uses the prompt `"PIN"` instead.) -/
theorem C5_pin_raw_amended (askpass : String → String) (req : Request)
    (replies : List Reply) :
    (trezorCall askpass req replies).prompts.count "PIN:"
        = (trezorCall askpass req replies).consumed.count .pinMatrixRequest
    ∧ ∀ p, Request.pinMatrixAck p ∈ (trezorCall askpass req replies).sent.tail →
        p = askpass "PIN:" := by
  constructor
  · rw [trezorCall_prompts_eq]
    exact count_filterMap_prompt_pin _
  · intro p hp
    rw [trezorCall_sent_eq] at hp
    exact pinAck_mem_filterMap askpass _ p hp

/-- Witness for C5 (amended) on a concrete chain with one PinMatrixRequest
and a collaborator answering `"55\n"`. -/
theorem C5_pin_raw_amended_inst :
    ((trezorCall (fun p => if p = "PIN:" then "55\n" else "q") .Initialize
        [.pinMatrixRequest, .features (some "i") (some "l") none]).prompts.count "PIN:"
      = (trezorCall (fun p => if p = "PIN:" then "55\n" else "q") .Initialize
        [.pinMatrixRequest, .features (some "i") (some "l") none]).consumed.count
          .pinMatrixRequest)
    ∧ "55\n" = (fun p => if p = "PIN:" then "55\n" else "q") "PIN:" := by
  refine ⟨(C5_pin_raw_amended _ _ _).1, ?_⟩
  exact (C5_pin_raw_amended (fun p => if p = "PIN:" then "55\n" else "q") .Initialize
    [.pinMatrixRequest, .features (some "i") (some "l") none]).2 "55\n" (by decide)

/-! ## Claim C6: passphrase collection -/

/-- An off-device `PassphraseRequest`: `on_device` is absent or false. -/
def Reply.isOffDevicePassphrase : Reply → Bool
  | .passphraseRequest od => decide (od ≠ some true)
  | _ => false

/-- An on-device `PassphraseRequest`: `on_device` present and true. -/
def Reply.isOnDevicePassphrase : Reply → Bool
  | .passphraseRequest od => decide (od = some true)
  | _ => false

/-- The collaborator prompt of the `src/unnamed/part_000` Call Engine. -/
def promptOfReplyV0 : Reply → Option String
  | .pinMatrixRequest => some "PIN"
  | .passphraseRequest od => if od = some true then none else some "Passphrase"
  | _ => none

theorem trezorCallV0_prompts_eq (askpass : String → String) (req : Request)
    (replies : List Reply) :
    (trezorCallV0 askpass req replies).prompts
      = (trezorCallV0 askpass req replies).consumed.filterMap promptOfReplyV0 := by
  induction replies generalizing req with
  | nil => simp [trezorCallV0]
  | cons r rest ih =>
      cases r
      case passphraseRequest od =>
        by_cases hod : od = some true <;> simp [trezorCallV0, hod, promptOfReplyV0, ih]
      all_goals simp [trezorCallV0, promptOfReplyV0, ih]

theorem count_filterMap_prompt_pass (l : List Reply) :
    (l.filterMap promptOfReply).count "Passphrase:"
      = l.countP (fun r => r.isOffDevicePassphrase) := by
  induction l with
  | nil => simp
  | cons r rest ih =>
      cases r
      case passphraseRequest od =>
        by_cases hod : od = some true <;>
          simp [promptOfReply, Reply.isOffDevicePassphrase, hod, List.count_cons,
            List.countP_cons, ih]
      all_goals
        simp [promptOfReply, Reply.isOffDevicePassphrase, List.count_cons,
          List.countP_cons, ih]

theorem count_filterMap_promptV0_pass (l : List Reply) :
    (l.filterMap promptOfReplyV0).count "Passphrase"
      = l.countP (fun r => r.isOffDevicePassphrase) := by
  induction l with
  | nil => simp
  | cons r rest ih =>
      cases r
      case passphraseRequest od =>
        by_cases hod : od = some true <;>
          simp [promptOfReplyV0, Reply.isOffDevicePassphrase, hod, List.count_cons,
            List.countP_cons, ih]
      all_goals
        simp [promptOfReplyV0, Reply.isOffDevicePassphrase, List.count_cons,
          List.countP_cons, ih]

theorem count_filterMap_ack_passNone (askpass : String → String) (l : List Reply) :
    (l.filterMap (ackOfReply askpass)).count (Request.passphraseAck none)
      = l.countP (fun r => r.isOnDevicePassphrase) := by
  induction l with
  | nil => simp
  | cons r rest ih =>
      cases r
      case passphraseRequest od =>
        by_cases hod : od = some true <;>
          simp [ackOfReply, Reply.isOnDevicePassphrase, hod, List.count_cons,
            List.countP_cons, ih]
      all_goals
        simp [ackOfReply, Reply.isOnDevicePassphrase, List.count_cons,
          List.countP_cons, ih]

theorem passAck_mem_filterMap (askpass : String → String) (l : List Reply)
    (s : String)
    (h : Request.passphraseAck (some s) ∈ l.filterMap (ackOfReply askpass)) :
    s = askpass "Passphrase:" := by
  rw [List.mem_filterMap] at h
  obtain ⟨a, -, ha⟩ := h
  cases a
  case passphraseRequest od =>
    by_cases hod : od = some true <;> simp [ackOfReply, hod] at ha
    exact ha.symm
  all_goals simp [ackOfReply] at ha

/-- C6 counterexample: the claim says an off-device PassphraseRequest
triggers an invocation with prompt `"Passphrase:"`.  The
`src/unnamed/part_000` variant (cited by the claim) invokes the
collaborator with `"Passphrase"` — no colon — so the collaborator is
invoked zero times with `"Passphrase:"` there. -/
theorem C6_passphrase_prompt_cex :
    (trezorCallV0 (fun _ => "pp") .Initialize
        [.passphraseRequest none, .failure (some "f")]).prompts = ["Passphrase"]
    ∧ ("Passphrase" : String) ≠ "Passphrase:" := by
  refine ⟨by decide, by decide⟩

/-- C6 (amended): per `PassphraseRequest` with `on_device` false or absent,
the Call Engine invokes the collaborator exactly once — with prompt
`"Passphrase:"` in the `src/main.go` variant and `"Passphrase"` in the
`src/unnamed/part_000` variant — and acknowledges with the collected
passphrase verbatim; per on-device `PassphraseRequest` it invokes the
collaborator zero times and acknowledges with an absent passphrase. -/
theorem C6_passphrase_amended (askpass : String → String) (req : Request)
    (replies : List Reply) :
    (trezorCall askpass req replies).prompts.count "Passphrase:"
        = (trezorCall askpass req replies).consumed.countP
            (fun r => r.isOffDevicePassphrase)
    ∧ (trezorCall askpass req replies).sent.tail.count (Request.passphraseAck none)
        = (trezorCall askpass req replies).consumed.countP
            (fun r => r.isOnDevicePassphrase)
    ∧ (∀ s, Request.passphraseAck (some s) ∈ (trezorCall askpass req replies).sent.tail →
        s = askpass "Passphrase:")
    ∧ (trezorCallV0 askpass req replies).prompts.count "Passphrase"
        = (trezorCallV0 askpass req replies).consumed.countP
            (fun r => r.isOffDevicePassphrase) := by
  refine ⟨?_, ?_, ?_, ?_⟩
  · rw [trezorCall_prompts_eq]
    exact count_filterMap_prompt_pass _
  · rw [trezorCall_sent_eq]
    exact count_filterMap_ack_passNone askpass _
  · intro s hs
    rw [trezorCall_sent_eq] at hs
    exact passAck_mem_filterMap askpass _ s hs
  · rw [trezorCallV0_prompts_eq]
    exact count_filterMap_promptV0_pass _

/-- Witness for C6 (amended) on a chain with one off-device and one
on-device PassphraseRequest. -/
theorem C6_passphrase_amended_inst :
    ((trezorCall (fun _ => "w") .Initialize
        [.passphraseRequest (some false), .passphraseRequest (some true),
          .failure (some "f")]).prompts.count "Passphrase:"
      = (trezorCall (fun _ => "w") .Initialize
        [.passphraseRequest (some false), .passphraseRequest (some true),
          .failure (some "f")]).consumed.countP (fun r => r.isOffDevicePassphrase))
    ∧ "w" = (fun (_ : String) => "w") "Passphrase:" := by
  refine ⟨(C6_passphrase_amended _ _ _).1, ?_⟩
  exact (C6_passphrase_amended (fun _ => "w") .Initialize
    [.passphraseRequest (some false), .passphraseRequest (some true),
      .failure (some "f")]).2.2.1 "w" (by decide)

/-! ## Reduction lemmas for the orchestrator -/

/-- Terminal replies on which the cipher-reply switch completes without a
runtime panic: anything except a confirmation (which `trezorCall` never
returns) and `Failure` with an absent message (whose branch dereferences a
nil pointer). -/
def cipherReplyOk : Reply → Bool
  | .buttonRequest => false
  | .pinMatrixRequest => false
  | .passphraseRequest _ => false
  | .passphraseStateRequest => false
  | .failure none => false
  | _ => true

/-- On the ordinary path — collaborators healthy, at least one device, a
terminal `Initialize` reply whose switch continues, a nonempty value that
the hex phase accepts — `main` reaches the cipher phase with the padded
processed value, carrying the stderr output and release count of the
initialization switch. -/
theorem main_run_reduce (hexIn hexOut encrypt : Bool) (key : String)
    (valueFlag : List Nat) (env : Env) (r : Reply) (eOut : List String)
    (rel : Nat) (v : List Nat)
    (hnew : env.newOk = true) (henum : env.enumOk = true)
    (hdev : 1 ≤ env.devices) (hacq : env.acquireOk = true)
    (hr : (trezorCall env.askpass .Initialize env.replies).result = some r)
    (hsw : initSwitch env.releaseOk r = .cont eOut rel)
    (hval : (resolveValue valueFlag env.envValue).length ≠ 0)
    (hproc : processValue hexIn encrypt (resolveValue valueFlag env.envValue) = some v) :
    main_run hexIn hexOut encrypt false key valueFlag env
      = mainCipherPhase hexOut encrypt key (pad16 v) env
          ((trezorCall env.askpass .Initialize env.replies).errOut ++ eOut) rel
          (trezorCall env.askpass .Initialize env.replies).rest := by
  rw [main_run, if_neg (by simp), if_neg (by simp [hnew]), if_neg (by simp [henum]),
    if_neg (by omega : ¬ env.devices < 1), if_neg (by simp [hacq])]
  simp only [mainAfterAcquire]
  split
  next heq => rw [hr] at heq; exact Option.noConfusion heq
  next r' heq =>
    rw [hr] at heq
    injection heq with heq
    subst heq
    split
    next eOut' rel' ex' heq2 => rw [hsw] at heq2; exact StepOut.noConfusion heq2
    next eOut' rel' heq2 =>
      rw [hsw] at heq2
      injection heq2 with h1 h2
      subst h1; subst h2
      simp only [mainValuePhase, if_neg hval]
      split
      next heq3 => rw [hproc] at heq3; exact Option.noConfusion heq3
      next v' heq3 =>
        rw [hproc] at heq3
        injection heq3 with heq3
        subst heq3
        rfl

/-- Whenever the cipher phase is reached, the `CipherKeyValue` request with
the given key, padded payload and encrypt flag is what goes to the
transport, on every branch of the reply switch. -/
theorem mainCipherPhase_cipherSent (hexOut encrypt : Bool) (key : String)
    (padded : List Nat) (env : Env) (errAcc : List String) (relAcc : Nat)
    (replies : List Reply) :
    (mainCipherPhase hexOut encrypt key padded env errAcc relAcc replies).cipherSent
      = some (.cipherKeyValue key padded encrypt true true) := by
  simp only [mainCipherPhase]
  split <;> try rfl
  all_goals split <;> rfl

/-- On a successful release and a panic-free terminal cipher reply, the
cipher phase performs exactly one `Release`. -/
theorem mainCipherPhase_releases (hexOut encrypt : Bool) (key : String)
    (padded : List Nat) (env : Env) (errAcc : List String) (relAcc : Nat)
    (replies : List Reply) (r2 : Reply)
    (hrel : env.releaseOk = true)
    (hr2 : (trezorCall env.askpass (.cipherKeyValue key padded encrypt true true)
        replies).result = some r2)
    (hok : cipherReplyOk r2 = true) :
    (mainCipherPhase hexOut encrypt key padded env errAcc relAcc replies).releases
      = relAcc + 1 := by
  cases r2 with
  | failure msg =>
      cases msg with
      | none => simp [cipherReplyOk] at hok
      | some m => simp only [mainCipherPhase]; rw [hr2]; simp [hrel]
  | buttonRequest => simp [cipherReplyOk] at hok
  | pinMatrixRequest => simp [cipherReplyOk] at hok
  | passphraseRequest od => simp [cipherReplyOk] at hok
  | passphraseStateRequest => simp [cipherReplyOk] at hok
  | features dId lbl boot => simp only [mainCipherPhase]; rw [hr2]; simp [hrel]
  | cipheredKeyValue v => simp only [mainCipherPhase]; rw [hr2]; simp [hrel]
  | unknownTerminal => simp only [mainCipherPhase]; rw [hr2]; simp [hrel]

/-- Full outcome of the cipher phase on a `Failure` reply with a present
message and a successful release. -/
theorem mainCipherPhase_failure (hexOut encrypt : Bool) (key : String)
    (padded : List Nat) (env : Env) (errAcc : List String) (relAcc : Nat)
    (replies : List Reply) (m : String)
    (hrel : env.releaseOk = true)
    (hr2 : (trezorCall env.askpass (.cipherKeyValue key padded encrypt true true)
        replies).result = some (.failure (some m))) :
    mainCipherPhase hexOut encrypt key padded env errAcc relAcc replies
      = ⟨[], errAcc
            ++ (trezorCall env.askpass (.cipherKeyValue key padded encrypt true true)
                replies).errOut
            ++ ["Failure: " ++ m ++ "\n"], relAcc + 1,
          some (.cipherKeyValue key padded encrypt true true), .exited 2⟩ := by
  simp only [mainCipherPhase]
  rw [hr2]
  simp [hrel]

/-! ## Claim C2: session release -/

/-- Environment of the C2 counterexample: one device, a bootloader-mode
`Features` reply to `Initialize`, then a successful cipher reply. -/
def envC2 : Env :=
  ⟨true, true, 1, true,
    [.features (some "id") (some "lbl") (some true), .cipheredKeyValue [9]],
    fun _ => "", [], true⟩

/-- C2 counterexample: a run in which the session is acquired and then
released twice.  The device reports bootloader mode; `src/main.go` releases
the session (line 163) but does not exit, so the run continues through the
cipher call and releases again at the end (line 247): `releases = 2`,
refuting "never twice". -/
theorem C2_double_release_cex :
    (main_run false false false false "k" [65] envC2).releases = 2
    ∧ (main_run false false false false "k" [65] envC2).exit = .exited 0 := by
  refine ⟨by decide, by decide⟩

/-- C2 (amended): after a session has been acquired, on every path on which
the `Initialize` switch continues without releasing (in particular whenever
the device is not in bootloader mode), a value is present and survives the
hex phase, the cipher call returns a panic-free terminal reply (success,
device `Failure` with a message, or any unrecognized terminal reply), and
release succeeds, the session is released exactly once.  (On the
bootloader-mode path it is released twice, and host-side `checkError`
exits and panics release zero times.) -/
theorem C2_release_once_amended (hexIn hexOut encrypt : Bool) (key : String)
    (valueFlag : List Nat) (env : Env) (r r2 : Reply) (eOut : List String)
    (v : List Nat)
    (hnew : env.newOk = true) (henum : env.enumOk = true)
    (hdev : 1 ≤ env.devices) (hacq : env.acquireOk = true)
    (hrel : env.releaseOk = true)
    (hr : (trezorCall env.askpass .Initialize env.replies).result = some r)
    (hsw : initSwitch env.releaseOk r = .cont eOut 0)
    (hval : (resolveValue valueFlag env.envValue).length ≠ 0)
    (hproc : processValue hexIn encrypt (resolveValue valueFlag env.envValue) = some v)
    (hr2 : (trezorCall env.askpass (.cipherKeyValue key (pad16 v) encrypt true true)
        (trezorCall env.askpass .Initialize env.replies).rest).result = some r2)
    (hok : cipherReplyOk r2 = true) :
    (main_run hexIn hexOut encrypt false key valueFlag env).releases = 1 := by
  rw [main_run_reduce hexIn hexOut encrypt key valueFlag env r eOut 0 v
    hnew henum hdev hacq hr hsw hval hproc]
  exact mainCipherPhase_releases hexOut encrypt key (pad16 v) env _ 0 _ r2 hrel hr2 hok

/-- Witness for C2 (amended): a concrete non-bootloader run ending in a
device `Failure` reply releases exactly once. -/
theorem C2_release_once_amended_inst :
    (main_run false false false false "k" [65]
        ⟨true, true, 1, true,
          [.features (some "i") (some "l") none, .failure (some "m")],
          fun _ => "", [], true⟩).releases = 1 := by
  exact C2_release_once_amended false false false "k" [65]
    ⟨true, true, 1, true,
      [.features (some "i") (some "l") none, .failure (some "m")],
      fun _ => "", [], true⟩
    (.features (some "i") (some "l") none) (.failure (some "m"))
    ["Device ID: i (l)\n"] [65]
    (by decide) (by decide) (by decide) (by decide) (by decide)
    (by decide) (by decide) (by decide) (by decide) (by decide) (by decide)

/-! ## Claim C3: bootloader mode -/

/-- Environment of the C3 run: bootloader-mode `Features`, then a `Failure`
reply to the cipher call the claim says should never be attempted. -/
def envC3 : Env :=
  ⟨true, true, 1, true,
    [.features (some "D") (some "L") (some true), .failure (some "x")],
    fun _ => "", [], true⟩

/-- C3 (code bug): with `bootloader_mode = true` in the `Features` reply,
`src/main.go` prints the notice and releases the session (lines 159–164)
but has no early return, so the run continues: a `CipherKeyValue` request
is still sent — over the already-released session — and the session ends up
released twice.  The claim (and spec §4.2 step 3) says the operation
terminates before any cipher call. -/
theorem C3_bootloader_continues :
    (main_run false false true false "k" [66] envC3).cipherSent
        = some (.cipherKeyValue "k" (pad16 [66]) true true true)
    ∧ (main_run false false true false "k" [66] envC3).releases = 2
    ∧ (main_run false false true false "k" [66] envC3).exit = .exited 2 := by
  refine ⟨by decide, by decide, by decide⟩

/-! ## Claim C7: failure reporting -/

/-- Environment of the C7 counterexample: a `Features` reply, then the
device answers the cipher call with `Failure{message: "PIN invalid"}`. -/
def envC7 : Env :=
  ⟨true, true, 1, true,
    [.features (some "i") none none, .failure (some "PIN invalid")],
    fun _ => "", [], true⟩

/-- C7 counterexample: in the `src/unnamed/part_000` variant (cited by the
claim), a `Failure{message: "PIN invalid"}` cipher reply is printed to
standard output — the diagnostic stream receives nothing — and the process
releases the session at the end and exits 0, not 2. -/
theorem C7_failure_exit_cex :
    (mainV0_run false envC7).exit = .exited 0
    ∧ (mainV0_run false envC7).errOut = []
    ∧ (mainV0_run false envC7).stdOut = ["Device ID: i\n", "Failure: PIN invalid\n"]
    ∧ (mainV0_run false envC7).releases = 1 := by
  refine ⟨by decide, by decide, by decide, by decide⟩

/-- C7 (amended): in the `src/main.go` variant, when the cipher call's
terminal reply is `Failure` with message `M` (and the run took the ordinary
non-bootloader path, with release succeeding), the failure branch appends
exactly `"Failure: " ++ M ++ "\n"` to the diagnostic stream, nothing is
written to standard output, the session is released exactly once, and the
process exits with status 2.  (In the `src/unnamed/part_000` variant the
message goes to standard output and the process exits 0.) -/
theorem C7_failure_path_amended (hexIn hexOut encrypt : Bool) (key : String)
    (valueFlag : List Nat) (env : Env) (r : Reply) (eOut : List String)
    (v : List Nat) (m : String)
    (hnew : env.newOk = true) (henum : env.enumOk = true)
    (hdev : 1 ≤ env.devices) (hacq : env.acquireOk = true)
    (hrel : env.releaseOk = true)
    (hr : (trezorCall env.askpass .Initialize env.replies).result = some r)
    (hsw : initSwitch env.releaseOk r = .cont eOut 0)
    (hval : (resolveValue valueFlag env.envValue).length ≠ 0)
    (hproc : processValue hexIn encrypt (resolveValue valueFlag env.envValue) = some v)
    (hr2 : (trezorCall env.askpass (.cipherKeyValue key (pad16 v) encrypt true true)
        (trezorCall env.askpass .Initialize env.replies).rest).result
        = some (.failure (some m))) :
    (main_run hexIn hexOut encrypt false key valueFlag env).errOut
        = ((trezorCall env.askpass .Initialize env.replies).errOut ++ eOut)
          ++ (trezorCall env.askpass (.cipherKeyValue key (pad16 v) encrypt true true)
              (trezorCall env.askpass .Initialize env.replies).rest).errOut
          ++ ["Failure: " ++ m ++ "\n"]
    ∧ (main_run hexIn hexOut encrypt false key valueFlag env).stdOut = []
    ∧ (main_run hexIn hexOut encrypt false key valueFlag env).releases = 1
    ∧ (main_run hexIn hexOut encrypt false key valueFlag env).exit = .exited 2 := by
  rw [main_run_reduce hexIn hexOut encrypt key valueFlag env r eOut 0 v
    hnew henum hdev hacq hr hsw hval hproc]
  rw [mainCipherPhase_failure hexOut encrypt key (pad16 v) env _ 0 _ m hrel hr2]
  simp

/-- Witness for C7 (amended): a concrete run with a `"PIN invalid"`
failure. -/
theorem C7_failure_path_amended_inst :
    (main_run false false false false "k" [65]
        ⟨true, true, 1, true,
          [.features (some "i") (some "l") none, .failure (some "PIN invalid")],
          fun _ => "", [], true⟩).errOut
      = (["Device ID: i (l)\n"] : List String) ++ [] ++ ["Failure: PIN invalid\n"]
    ∧ (main_run false false false false "k" [65]
        ⟨true, true, 1, true,
          [.features (some "i") (some "l") none, .failure (some "PIN invalid")],
          fun _ => "", [], true⟩).exit = .exited 2 := by
  have h := C7_failure_path_amended false false false "k" [65]
    ⟨true, true, 1, true,
      [.features (some "i") (some "l") none, .failure (some "PIN invalid")],
      fun _ => "", [], true⟩
    (.features (some "i") (some "l") none) ["Device ID: i (l)\n"] [65] "PIN invalid"
    (by decide) (by decide) (by decide) (by decide) (by decide)
    (by decide) (by decide) (by decide) (by decide) (by decide)
  refine ⟨?_, h.2.2.2⟩
  have h1 := h.1
  simpa using h1

/-! ## Claim C8: malformed hex -/

/-- Environment of the C8 run: a healthy device that would happily cipher
whatever payload arrives. -/
def envC8 : Env :=
  ⟨true, true, 1, true,
    [.features (some "i") (some "l") none, .cipheredKeyValue [7]],
    fun _ => "", [], true⟩

/-- The bytes of the malformed hex input `"4142zz"`. -/
def hexInputC8 : List Nat := [52, 49, 52, 50, 122, 122]

/-- C8 (code bug): with `-Hi` in decrypt mode and the malformed hex input
`"4142zz"`, `src/main.go` discards the `hex.DecodeString` error (line 194),
keeps the partially decoded `[0x41, 0x42]`, passes the even-length check,
decodes again in place to `[0xab, 0x42]`, and proceeds to the cipher call
and a status-0 exit — it does not fail fatally as the claim requires. -/
theorem C8_malformed_hex_proceeds :
    hexDecodeString hexInputC8 = [65, 66]
    ∧ (main_run true false false false "k" hexInputC8 envC8).cipherSent
        = some (.cipherKeyValue "k" (pad16 [171, 66]) false true true)
    ∧ (main_run true false false false "k" hexInputC8 envC8).exit = .exited 0 := by
  refine ⟨by decide, by decide, by decide⟩

/-! ## Claim C9: output streams -/

theorem trezorCall_rest_subset (askpass : String → String) (req : Request)
    (replies : List Reply) (r : Reply)
    (h : r ∈ (trezorCall askpass req replies).rest) : r ∈ replies := by
  rw [← trezorCall_consumed_append askpass req replies]
  exact List.mem_append_right _ h

theorem mainCipherPhase_stdOut (hexOut encrypt : Bool) (key : String)
    (padded : List Nat) (env : Env) (errAcc : List String) (relAcc : Nat)
    (replies : List Reply) :
    (mainCipherPhase hexOut encrypt key padded env errAcc relAcc replies).stdOut = []
    ∨ ∃ v, (mainCipherPhase hexOut encrypt key padded env errAcc relAcc replies).stdOut
          = [if hexOut then hexEncodeToString v else v]
        ∧ (trezorCall env.askpass (.cipherKeyValue key padded encrypt true true)
            replies).result = some (.cipheredKeyValue v) := by
  simp only [mainCipherPhase]
  split
  · exact Or.inl rfl
  next v heq =>
    right
    refine ⟨v, ?_, heq⟩
    split <;> rfl
  · exact Or.inl rfl
  next m heq => split <;> exact Or.inl rfl
  next heq => split <;> exact Or.inl rfl

theorem mainValuePhase_stdOut (hexIn hexOut encrypt : Bool) (key : String)
    (valueFlag : List Nat) (env : Env) (errAcc : List String) (relAcc : Nat)
    (replies : List Reply) :
    (mainValuePhase hexIn hexOut encrypt key valueFlag env errAcc relAcc replies).stdOut
        = []
    ∨ ∃ v, (mainValuePhase hexIn hexOut encrypt key valueFlag env errAcc relAcc
            replies).stdOut
          = [if hexOut then hexEncodeToString v else v]
        ∧ ∃ req, (trezorCall env.askpass req replies).result
            = some (.cipheredKeyValue v) := by
  simp only [mainValuePhase]
  split
  · split <;> exact Or.inl rfl
  · split
    · exact Or.inl rfl
    next v' heq =>
      rcases mainCipherPhase_stdOut hexOut encrypt key (pad16 v') env errAcc relAcc
          replies with h | ⟨v, h1, h2⟩
      · exact Or.inl h
      · exact Or.inr ⟨v, h1, _, h2⟩

/-- C9 (amended): in the `src/main.go` variant, the only bytes a run ever
writes to standard output are a single chunk holding the final ciphered
value the device returned (hex-encoded exactly when `-Ho` is set); every
other message goes to the error stream.  (In the `src/unnamed/part_000`
variant, `PIN Request` notices, the device identity, unknown-type reports
and the `Data: `-prefixed result are all written to standard output
instead.) -/
theorem C9_stdout_amended (hexIn hexOut encrypt help : Bool) (key : String)
    (valueFlag : List Nat) (env : Env) :
    (main_run hexIn hexOut encrypt help key valueFlag env).stdOut = []
    ∨ ∃ v, (main_run hexIn hexOut encrypt help key valueFlag env).stdOut
          = [if hexOut then hexEncodeToString v else v]
        ∧ Reply.cipheredKeyValue v ∈ env.replies := by
  simp only [main_run]
  split
  · exact Or.inl rfl
  split
  · exact Or.inl rfl
  split
  · exact Or.inl rfl
  split
  · exact Or.inl rfl
  split
  · exact Or.inl rfl
  simp only [mainAfterAcquire]
  split
  · exact Or.inl rfl
  next r heq =>
    split
    · exact Or.inl rfl
    next eOut rel heq2 =>
      rcases mainValuePhase_stdOut hexIn hexOut encrypt key valueFlag env
          ((trezorCall env.askpass .Initialize env.replies).errOut ++ eOut) rel
          (trezorCall env.askpass .Initialize env.replies).rest with h | ⟨v, h1, req, h2⟩
      · exact Or.inl h
      · refine Or.inr ⟨v, h1, ?_⟩
        exact trezorCall_rest_subset env.askpass .Initialize env.replies _
          (trezorCall_result_mem env.askpass req _ _ h2)

/-- Environment of the C9 counterexample: the cipher call chain contains a
`PinMatrixRequest`, then the device fails. -/
def envC9 : Env :=
  ⟨true, true, 1, true,
    [.features (some "i") none none, .pinMatrixRequest, .failure (some "f")],
    fun _ => "1", [], true⟩

/-- C9 counterexample: the claim says every message other than the final
ciphered value goes to the error stream.  In the `src/unnamed/part_000`
variant (cited by the claim), the device identity, the `PIN Request` notice
and the failure report are all written to standard output, and the error
stream stays empty. -/
theorem C9_stdout_diagnostics_cex :
    (mainV0_run false envC9).stdOut
        = ["Device ID: i\n", "PIN Request\n", "Failure: f\n"]
    ∧ (mainV0_run false envC9).errOut = [] := by
  refine ⟨by decide, by decide⟩

/-! ## Claim C10: double hex decoding in decrypt mode -/

/-- A byte that is an ASCII hex digit for Go `encoding/hex`. -/
def isHexDigit (c : Nat) : Bool := (fromHexChar c).isSome

/-- A well-formed hex input: every byte a hex digit and even length. -/
def isWellFormedHex (s : List Nat) : Bool :=
  s.all isHexDigit && s.length % 2 == 0

/-- The bytes of the well-formed hex input `"64656164"` (which decodes once
to the ASCII bytes of `"dead"`, themselves hex digits). -/
def hexInputC10 : List Nat := [54, 52, 54, 53, 54, 49, 54, 52]

/-- C10: in decrypt mode with `-Hi` and a well-formed hex input whose
once-decoded length passes the fatal even-length check, the payload
submitted to the `CipherKeyValue` call is the input hex-decoded once and
then hex-decoded *again in place* (`hex.Decode(value, value)` with the
results discarded: the decoded pairs overwrite the front of the slice,
whose length is unchanged), zero-padded to a 16-byte multiple — and, as the
concrete input `"64656164"` shows, that differs from the once-decoded,
zero-padded payload. -/
theorem C10_double_decode (hexOut : Bool) (key : String) (valueFlag : List Nat)
    (env : Env) (r : Reply) (eOut : List String) (rel : Nat)
    (hnew : env.newOk = true) (henum : env.enumOk = true)
    (hdev : 1 ≤ env.devices) (hacq : env.acquireOk = true)
    (hr : (trezorCall env.askpass .Initialize env.replies).result = some r)
    (hsw : initSwitch env.releaseOk r = .cont eOut rel)
    (hval : (resolveValue valueFlag env.envValue).length ≠ 0)
    (hwf : isWellFormedHex (resolveValue valueFlag env.envValue) = true)
    (heven : (hexDecodeString (resolveValue valueFlag env.envValue)).length % 2 = 0) :
    (main_run true hexOut false false key valueFlag env).cipherSent
        = some (.cipherKeyValue key
            (pad16 (hexDecodeInPlace (hexDecodeString (resolveValue valueFlag env.envValue))))
            false true true)
    ∧ pad16 (hexDecodeInPlace (hexDecodeString hexInputC10))
        ≠ pad16 (hexDecodeString hexInputC10) := by
  constructor
  · have hproc : processValue true false (resolveValue valueFlag env.envValue)
        = some (hexDecodeInPlace (hexDecodeString (resolveValue valueFlag env.envValue))) := by
      simp [processValue, heven]
    rw [main_run_reduce true hexOut false key valueFlag env r eOut rel _
      hnew henum hdev hacq hr hsw hval hproc]
    exact mainCipherPhase_cipherSent hexOut false key _ env _ rel _
  · decide

/-- Witness for C10 on the concrete input `"64656164"`: the submitted
payload starts `0xde 0xad 0x61 0x64`, the in-place second decode. -/
theorem C10_double_decode_inst :
    (main_run true false false false "k" hexInputC10
        ⟨true, true, 1, true,
          [.features (some "i") (some "l") none, .cipheredKeyValue [1]],
          fun _ => "", [], true⟩).cipherSent
      = some (.cipherKeyValue "k" (pad16 [222, 173, 97, 100]) false true true) := by
  have h := C10_double_decode false "k" hexInputC10
    ⟨true, true, 1, true,
      [.features (some "i") (some "l") none, .cipheredKeyValue [1]],
      fun _ => "", [], true⟩
    (.features (some "i") (some "l") none) ["Device ID: i (l)\n"] 0
    (by decide) (by decide) (by decide) (by decide) (by decide)
    (by decide) (by decide) (by decide) (by decide)
  have h1 := h.1
  simpa [resolveValue, hexInputC10, hexDecodeString, hexDecodeInPlace,
    decodeHexPairs, fromHexChar] using h1

end TrezorEncrypt
